import Mathlib

/-!
Verification development for the channel credential subsystem
(SSL channel/server credentials core and its binding surface).

The definitions below are a shallow embedding of the two source files:
  - the SSL credentials core (ssl_destruct, ssl_create_security_connector,
    ssl_build_config, grpc_ssl_credentials_create,
    grpc_tsi_ssl_pem_key_cert_pairs_destroy, the server-side builders), and
  - the binding surface (ChannelCredentials::CreateSsl, Compose,
    CreateInsecure, GetWrappedCredentials, verify_peer_callback_wrapper).

Conventions of the embedding:
  - C strings (char pointers) that may be NULL become Option String; the
    string value stands for the byte contents of the buffer.
  - gpr_strdup is a deep copy of contents; in the value-level model a copy
    is represented by the value itself (a separate heap-level model with
    explicit addresses is given for the aliasing claims).
  - GPR_ASSERT failure (process abort) is modelled as the Option value none:
    no object is produced on that path.
  - function pointers that are only tested against NULL become Bool
    (present or not); the verify-peer userdata pointer becomes Option Nat,
    the Nat identifying the host callback stored in the callback_md.
  - vtable dispatch is modelled by invoking the per-variant function
    (ssl_destruct, ssl_create_security_connector) directly.
  - the destruct path is modelled as the list of observable events it
    performs (frees of owned buffers, the bridge teardown call).
-/

/-- JsErrKind distinguishes the two host error classes the binding raises:
Nan ThrowTypeError versus Nan ThrowError. -/
inductive JsErrKind
  | typeError
  | genericError
deriving DecidableEq, Repr

/-- JsError is a host-side error value: its class and its message string. -/
structure JsError where
  kind : JsErrKind
  msg : String
deriving DecidableEq, Repr

/-- JsValue models the host values the binding surface inspects: null,
undefined, Buffer instances (with their byte contents), functions (tagged by
an identity), booleans, strings, and a constructor for every other value. -/
inductive JsValue
  | null
  | undefined
  | buffer (data : String)
  | jsfunc (id : Nat)
  | jsbool (b : Bool)
  | jstr (s : String)
  | other
deriving DecidableEq, Repr

/-- isNullish corresponds to the source test info[i].IsNull or
info[i].IsUndefined. -/
def isNullish : JsValue → Bool
  | JsValue.null => true
  | JsValue.undefined => true
  | _ => false

/-- isBuffer corresponds to the source test node Buffer HasInstance. -/
def isBuffer : JsValue → Bool
  | JsValue.buffer _ => true
  | _ => false

/-- isFunctionV corresponds to the source test value.IsFunction. -/
def isFunctionV : JsValue → Bool
  | JsValue.jsfunc _ => true
  | _ => false

/-- isBooleanV corresponds to the source test value.IsBoolean. -/
def isBooleanV : JsValue → Bool
  | JsValue.jsbool _ => true
  | _ => false

/-- isStringV corresponds to the source test key.IsString. -/
def isStringV : JsValue → Bool
  | JsValue.jstr _ => true
  | _ => false

/-- VerifyPeerOptions embeds the C struct verify_peer_options as used by the
sources: the wrapper function pointer and the destruct function pointer are
only ever tested against NULL, so they are Bool (present or not); the
userdata pointer carries the identity of the host callback. -/
structure VerifyPeerOptions where
  verify_peer_callback : Bool
  verify_peer_callback_userdata : Option Nat
  verify_peer_destruct : Bool
  skip_hostname_verification : Bool
deriving DecidableEq, Repr

/-- zeroed_verify_peer_options is the zero initialisation of the struct, as
written in the binding: all pointers NULL and the flag false. -/
def zeroed_verify_peer_options : VerifyPeerOptions :=
  { verify_peer_callback := false
    verify_peer_callback_userdata := none
    verify_peer_destruct := false
    skip_hostname_verification := false }

/-- GrpcSslPemKeyCertPair embeds grpc_ssl_pem_key_cert_pair: two char
pointers that may each be NULL. -/
structure GrpcSslPemKeyCertPair where
  private_key : Option String
  cert_chain : Option String
deriving DecidableEq, Repr

/-- TsiPemKeyCertPair embeds tsi_ssl_pem_key_cert_pair after construction:
both halves are owned, non-NULL copies. -/
structure TsiPemKeyCertPair where
  private_key : String
  cert_chain : String
deriving DecidableEq, Repr

/-- GrpcSslConfig embeds grpc_ssl_config: an optional owned root bundle, an
optional owned single key/cert pair, and the verify options. -/
structure GrpcSslConfig where
  pem_root_certs : Option String
  pem_key_cert_pair : Option TsiPemKeyCertPair
  verify_options : VerifyPeerOptions
deriving DecidableEq, Repr

/-- GrpcSslCredentials embeds grpc_ssl_credentials: the refcounted base
(type GRPC_CHANNEL_CREDENTIALS_TYPE_SSL, vtable ssl_vtable — dispatch is
modelled by calling ssl_destruct directly) plus the owned config. -/
structure GrpcSslCredentials where
  refcount : Nat
  config : GrpcSslConfig
deriving DecidableEq, Repr

/-- ssl_build_config embeds the source function of the same name. The config
starts zeroed; the root bundle is strdup-copied when present; when a pair is
passed, GPR_ASSERT requires both halves non-NULL (assert failure is none)
and both halves are strdup-copied into a freshly allocated owned pair; the
verify options are memcpy-ed when passed, otherwise they stay zeroed. -/
def ssl_build_config (pem_root_certs : Option String)
    (pem_key_cert_pair : Option GrpcSslPemKeyCertPair)
    (verify_options : Option VerifyPeerOptions) : Option GrpcSslConfig :=
  let root := pem_root_certs
  let vo := match verify_options with
    | some v => v
    | none => zeroed_verify_peer_options
  match pem_key_cert_pair with
  | none =>
      some { pem_root_certs := root, pem_key_cert_pair := none, verify_options := vo }
  | some p =>
      match p.private_key, p.cert_chain with
      | some k, some ch =>
          some { pem_root_certs := root
                 pem_key_cert_pair := some { private_key := k, cert_chain := ch }
                 verify_options := vo }
      | _, _ => none

/-- grpc_ssl_credentials_create embeds the source entry point: it asserts
reserved is NULL, zero-allocates the credential, sets type and vtable,
initialises the refcount to 1 and builds the config in place. -/
def grpc_ssl_credentials_create (pem_root_certs : Option String)
    (pem_key_cert_pair : Option GrpcSslPemKeyCertPair)
    (verify_options : Option VerifyPeerOptions)
    (reserved : Option Unit) : Option GrpcSslCredentials :=
  match reserved with
  | some _ => none
  | none =>
      (ssl_build_config pem_root_certs pem_key_cert_pair verify_options).map
        fun cfg => { refcount := 1, config := cfg }

/-- DestructEvent records the observable actions of a destruct hook: frees
of owned buffers (tagged with their contents), the free of the pair array,
and the invocation of the verify-peer teardown with its userdata. -/
inductive DestructEvent
  | free_root (contents : String)
  | free_private_key (contents : String)
  | free_cert_chain (contents : String)
  | free_pair_array
  | teardown (userdata : Option Nat)
deriving DecidableEq, Repr

/-- grpc_tsi_ssl_pem_key_cert_pairs_destroy embeds the source function: a
NULL array is a no-op; otherwise each pair has its private key and cert
chain freed, then the array itself is freed. -/
def grpc_tsi_ssl_pem_key_cert_pairs_destroy :
    Option (List TsiPemKeyCertPair) → List DestructEvent
  | none => []
  | some kps =>
      (kps.map fun p =>
        [DestructEvent.free_private_key p.private_key,
         DestructEvent.free_cert_chain p.cert_chain]).flatten
      ++ [DestructEvent.free_pair_array]

/-- ssl_destruct embeds the source destruct hook: it frees the root bundle
(gpr_free of NULL is a no-op, so no event is recorded when absent), destroys
the single owned key/cert pair, and, only when verify_peer_destruct is
non-NULL, calls it on the stored userdata. -/
def ssl_destruct (c : GrpcSslCredentials) : List DestructEvent :=
  (match c.config.pem_root_certs with
   | some s => [DestructEvent.free_root s]
   | none => [])
  ++ grpc_tsi_ssl_pem_key_cert_pairs_destroy
      (c.config.pem_key_cert_pair.map fun p => [p])
  ++ (if c.config.verify_options.verify_peer_destruct then
        [DestructEvent.teardown c.config.verify_options.verify_peer_callback_userdata]
      else [])

/-- teardown_count counts the teardown invocations in a destruct event
trace. -/
def teardown_count (evs : List DestructEvent) : Nat :=
  evs.countP fun e =>
    match e with
    | DestructEvent.teardown _ => true
    | _ => false

/-!
Binding surface: ChannelCredentials (CreateSsl, Compose, CreateInsecure,
GetWrappedCredentials) and the peer verification bridge wrapper.
-/

/-- msgCreateSslFirstArg is the TypeError message for a bad first argument
of createSsl (the message text in the source contains an apostrophe,
written here with its escape). -/
def msgCreateSslFirstArg : String := "createSsl\x27s first argument must be a Buffer"

/-- msgCreateSslSecondArg is the TypeError message for a bad second
argument of createSsl (the source spells the function name with the
capitalisation SSl in this message). -/
def msgCreateSslSecondArg : String :=
  "createSSl\x27s second argument must be a Buffer if provided"

/-- msgCreateSslThirdArg is the TypeError message for a bad third argument
of createSsl. -/
def msgCreateSslThirdArg : String :=
  "createSSl\x27s third argument must be a Buffer if provided"

/-- msgKeyCertPairMismatch is the Error message raised when exactly one of
the key/cert arguments is provided (the source concatenates two adjacent
string literals). -/
def msgKeyCertPairMismatch : String :=
  "createSsl\x27s second and third arguments must be provided or omitted together"

/-- msgCheckServerIdentityFn is the Error message for a non-callable
checkServerIdentity option. -/
def msgCheckServerIdentityFn : String :=
  "Value of checkServerIdentity must be a function."

/-- msgInsecureSkipBool is the Error message for a non-boolean
insecureSkipHostnameVerify option. -/
def msgInsecureSkipBool : String :=
  "Value of insecureSkipHostnameVerify must be a boolean."

/-- msgComposeNotChannel is the TypeError message when compose is called on
a non-ChannelCredentials receiver. -/
def msgComposeNotChannel : String :=
  "compose can only be called on ChannelCredentials objects"

/-- msgComposeFirstArg is the TypeError message when the first argument of
compose is not a CallCredentials object. -/
def msgComposeFirstArg : String :=
  "compose\x27s first argument must be a CallCredentials object"

/-- msgComposeInsecure is the TypeError message when compose is applied to
the insecure credential (wrapped native pointer NULL). -/
def msgComposeInsecure : String := "Cannot compose insecure credential"

/-- readBufferArg embeds the per-argument pattern of CreateSsl: a Buffer
yields its data pointer, null/undefined yields NULL, and everything else is
a type error (none). -/
def readBufferArg (v : JsValue) : Option (Option String) :=
  match v with
  | JsValue.buffer d => some (some d)
  | JsValue.null => some none
  | JsValue.undefined => some none
  | _ => none

/-- scanOptions embeds the option-bag loop of CreateSsl over the own
property list of the fourth argument, threading the local verify_options
struct. Keys that are not strings are skipped; the key checkServerIdentity
requires a function value and attaches the verification bridge (wrapper
pointer, fresh callback_md userdata, destruct pointer); the key
insecureSkipHostnameVerify requires a boolean value; every other string key
is ignored. On an error return the struct state at that moment is carried
along with the error (it is what the aborted call leaks). -/
def scanOptions : List (JsValue × JsValue) → VerifyPeerOptions →
    Except (JsError × VerifyPeerOptions) VerifyPeerOptions
  | [], vo => Except.ok vo
  | (key, value) :: rest, vo =>
      match key with
      | JsValue.jstr s =>
          if s = "checkServerIdentity" then
            match value with
            | JsValue.jsfunc id =>
                scanOptions rest
                  { vo with verify_peer_callback := true
                            verify_peer_callback_userdata := some id
                            verify_peer_destruct := true }
            | _ =>
                Except.error
                  ({ kind := JsErrKind.genericError, msg := msgCheckServerIdentityFn }, vo)
          else if s = "insecureSkipHostnameVerify" then
            match value with
            | JsValue.jsbool b =>
                scanOptions rest { vo with skip_hostname_verification := b }
            | _ =>
                Except.error
                  ({ kind := JsErrKind.genericError, msg := msgInsecureSkipBool }, vo)
          else scanOptions rest vo
      | _ => scanOptions rest vo

/-- scanOptionBag applies scanOptions to the fourth argument of CreateSsl:
when the argument is absent or not an object (none), the zeroed struct is
kept unchanged. -/
def scanOptionBag (a3 : Option (List (JsValue × JsValue))) :
    Except (JsError × VerifyPeerOptions) VerifyPeerOptions :=
  match a3 with
  | some props => scanOptions props zeroed_verify_peer_options
  | none => Except.ok zeroed_verify_peer_options

/-- BindingOutcome is the observable result of a CreateSsl call: a thrown
host error, a null return (native create returned NULL), or a wrapped
credential. -/
inductive BindingOutcome
  | jserr (e : JsError)
  | jsnull
  | okCreds (c : GrpcSslCredentials)
deriving DecidableEq, Repr

/-- CreateSslRun pairs the outcome of a CreateSsl call with whether a
verification bridge (a callback_md with its destruct hook) had been
attached by the time the call finished — on an error return after the
attach, that state is exactly what leaks. -/
structure CreateSslRun where
  outcome : BindingOutcome
  bridge_attached : Bool
deriving DecidableEq, Repr

/-- ChannelCredentials_CreateSsl embeds the CreateSsl binding method:
validate the three buffer arguments in order, reject a half-provided
key/cert pair, scan the option bag, then call grpc_ssl_credentials_create
with the root pointer, the pair (passed only when the private key is
non-NULL) and the address of the local verify_options. -/
def ChannelCredentials_CreateSsl (a0 a1 a2 : JsValue)
    (a3 : Option (List (JsValue × JsValue))) : CreateSslRun :=
  match readBufferArg a0 with
  | none =>
      { outcome := BindingOutcome.jserr
          { kind := JsErrKind.typeError, msg := msgCreateSslFirstArg }
        bridge_attached := false }
  | some root_certs =>
  match readBufferArg a1 with
  | none =>
      { outcome := BindingOutcome.jserr
          { kind := JsErrKind.typeError, msg := msgCreateSslSecondArg }
        bridge_attached := false }
  | some private_key =>
  match readBufferArg a2 with
  | none =>
      { outcome := BindingOutcome.jserr
          { kind := JsErrKind.typeError, msg := msgCreateSslThirdArg }
        bridge_attached := false }
  | some cert_chain =>
  if private_key.isNone != cert_chain.isNone then
    { outcome := BindingOutcome.jserr
        { kind := JsErrKind.genericError, msg := msgKeyCertPairMismatch }
      bridge_attached := false }
  else
    match scanOptionBag a3 with
    | Except.error (e, voErr) =>
        { outcome := BindingOutcome.jserr e
          bridge_attached := voErr.verify_peer_destruct }
    | Except.ok vo =>
        match grpc_ssl_credentials_create root_certs
            (match private_key with
             | none => none
             | some k => some { private_key := some k, cert_chain := cert_chain })
            (some vo) none with
        | none =>
            { outcome := BindingOutcome.jsnull
              bridge_attached := vo.verify_peer_destruct }
        | some c =>
            { outcome := BindingOutcome.okCreds c
              bridge_attached := vo.verify_peer_destruct }

/-- createSsl_lifecycle_events models the full lifecycle of one CreateSsl
call: on success the wrapper object eventually releases the credential
(refcount 1, so ssl_destruct runs exactly once); on a thrown error or a
null return no credential exists and no destruct hook ever runs — in
particular nothing on that path calls verify_peer_destruct on the
already-allocated callback_md. -/
def createSsl_lifecycle_events (a0 a1 a2 : JsValue)
    (a3 : Option (List (JsValue × JsValue))) : List DestructEvent :=
  match (ChannelCredentials_CreateSsl a0 a1 a2 a3).outcome with
  | BindingOutcome.okCreds c => ssl_destruct c
  | _ => []

/-- ChannelCredentialsW embeds the binding wrapper object: it holds the
wrapped native channel credential pointer, NULL for the insecure variant
(native pointers are modelled as Nat handles). -/
structure ChannelCredentialsW where
  wrapped_credentials : Option Nat
deriving DecidableEq, Repr

/-- WrapStruct embeds ChannelCredentials::WrapStruct: it constructs the
wrapper around the given native pointer. -/
def WrapStruct (credentials : Option Nat) : ChannelCredentialsW :=
  { wrapped_credentials := credentials }

/-- ChannelCredentials_GetWrappedCredentials embeds the accessor of the
same name: it returns the stored native pointer. -/
def ChannelCredentials_GetWrappedCredentials (c : ChannelCredentialsW) : Option Nat :=
  c.wrapped_credentials

/-- ChannelCredentials_CreateInsecure embeds CreateInsecure: it wraps the
NULL native pointer. -/
def ChannelCredentials_CreateInsecure : ChannelCredentialsW :=
  WrapStruct none

/-- CallCredentialsW embeds the call-credential wrapper as seen by compose:
a valid handle wrapping a native call credential pointer. -/
structure CallCredentialsW where
  wrapped : Nat
deriving DecidableEq, Repr

/-- ComposeOutcome is the observable result of a Compose call: a thrown
host error, or the native composite construction reached with the two
unwrapped pointers (grpc_composite_channel_credentials_create itself is an
out-of-scope collaborator). -/
inductive ComposeOutcome
  | jserr (e : JsError)
  | construct (chan : Nat) (call : Nat)
deriving DecidableEq, Repr

/-- ChannelCredentials_Compose embeds the Compose binding method: the
receiver must be a ChannelCredentials instance (none models a receiver that
fails HasInstance), the first argument must be a CallCredentials instance,
the receiver must not wrap NULL (the insecure credential), and only then is
the native composite constructor invoked on the two unwrapped pointers. -/
def ChannelCredentials_Compose (thisObj : Option ChannelCredentialsW)
    (arg0 : Option CallCredentialsW) : ComposeOutcome :=
  match thisObj with
  | none =>
      ComposeOutcome.jserr { kind := JsErrKind.typeError, msg := msgComposeNotChannel }
  | some self =>
  match arg0 with
  | none =>
      ComposeOutcome.jserr { kind := JsErrKind.typeError, msg := msgComposeFirstArg }
  | some other =>
  match self.wrapped_credentials with
  | none =>
      ComposeOutcome.jserr { kind := JsErrKind.typeError, msg := msgComposeInsecure }
  | some w => ComposeOutcome.construct w other.wrapped

/-- CbBehavior models the two observable behaviours of the host callback
invoked by the bridge: it returns normally, or it throws (caught by the
TryCatch in the wrapper). -/
inductive CbBehavior
  | ret
  | throwException
deriving DecidableEq, Repr

/-- verify_peer_callback_wrapper embeds the source wrapper: each of the two
C strings is marshalled to the host as Null when the pointer is NULL and as
a host string of its contents otherwise; the callback is called exactly
once, synchronously, with the two arguments in order (the call trace is
returned alongside the result); if the TryCatch caught a throw the wrapper
returns 1, otherwise 0. -/
def verify_peer_callback_wrapper (callback : JsValue → JsValue → CbBehavior)
    (servername cert : Option String) : Int × List (JsValue × JsValue) :=
  let argv0 := match servername with
    | none => JsValue.null
    | some s => JsValue.jstr s
  let argv1 := match cert with
    | none => JsValue.null
    | some s => JsValue.jstr s
  let calls := [(argv0, argv1)]
  match callback argv0 argv1 with
  | CbBehavior.throwException => (1, calls)
  | CbBehavior.ret => (0, calls)

/-- marshalArg states the intended marshalling of a nullable C string into
a host value: absence becomes the explicit Null marker, presence becomes
the string of the contents. -/
def marshalArg : Option String → JsValue
  | none => JsValue.null
  | some s => JsValue.jstr s

/-!
Theorems.
-/

/-- C2: for every pair of nullable inputs, the bridge wrapper calls the
wrapped host function exactly once, synchronously, with the two arguments
in order, marshalling a NULL input as the explicit Null marker (distinct
from the empty string) and a non-NULL input as the corresponding string; a
throwing callback makes the wrapper return reject (1, nonzero) without
propagating, and otherwise it returns accept (0). -/
theorem verify_peer_callback_wrapper_contract
    (callback : JsValue → JsValue → CbBehavior) (servername cert : Option String) :
    (verify_peer_callback_wrapper callback servername cert).2 =
        [(marshalArg servername, marshalArg cert)]
    ∧ (verify_peer_callback_wrapper callback servername cert).2.length = 1
    ∧ (verify_peer_callback_wrapper callback servername cert).1 =
        (if callback (marshalArg servername) (marshalArg cert) = CbBehavior.throwException
         then 1 else 0)
    ∧ ((verify_peer_callback_wrapper callback servername cert).1 = 0 ∨
        (verify_peer_callback_wrapper callback servername cert).1 = 1)
    ∧ marshalArg none = JsValue.null
    ∧ (∀ s : String, marshalArg (some s) = JsValue.jstr s)
    ∧ (∀ s : String, (JsValue.null : JsValue) ≠ JsValue.jstr s) := by
  have e0 : (match servername with
             | none => JsValue.null
             | some s => JsValue.jstr s) = marshalArg servername := by
    cases servername <;> rfl
  have e1 : (match cert with
             | none => JsValue.null
             | some s => JsValue.jstr s) = marshalArg cert := by
    cases cert <;> rfl
  simp only [verify_peer_callback_wrapper]
  rw [e0, e1]
  cases hc : callback (marshalArg servername) (marshalArg cert) <;>
    simp [hc, marshalArg]

/-- C9: the insecure variant is exactly the wrapper whose wrapped native
pointer is NULL: CreateInsecure returns such a wrapper,
GetWrappedCredentials on it returns NULL, and the insecure-credential
rejection of compose fires precisely when the receiver wraps NULL. -/
theorem insecure_is_null_wrapped :
    ChannelCredentials_CreateInsecure.wrapped_credentials = none
    ∧ ChannelCredentials_GetWrappedCredentials ChannelCredentials_CreateInsecure = none
    ∧ ∀ (self : ChannelCredentialsW) (other : CallCredentialsW),
        (ChannelCredentials_Compose (some self) (some other) =
            ComposeOutcome.jserr
              { kind := JsErrKind.typeError, msg := msgComposeInsecure })
          ↔ self.wrapped_credentials = none := by
  refine ⟨rfl, rfl, ?_⟩
  intro self other
  cases h : self.wrapped_credentials <;>
    simp [ChannelCredentials_Compose, h]

/-- C4 counterexample: composing the insecure credential with a valid call
credential raises the message with a capital C, "Cannot compose insecure
credential", so the claimed lowercase message "cannot compose insecure
credential" is not the one the code produces. -/
theorem compose_insecure_message_counterexample :
    ChannelCredentials_Compose (some (WrapStruct none)) (some { wrapped := 0 }) =
        ComposeOutcome.jserr
          { kind := JsErrKind.typeError, msg := "Cannot compose insecure credential" }
    ∧ "Cannot compose insecure credential" ≠ "cannot compose insecure credential" :=
  ⟨rfl, by decide⟩

/-- C4 amended: for every valid call credential, composing onto the
insecure credential fails with the InvalidState-class rejection carrying
the message "Cannot compose insecure credential" and never reaches native
construction (no mutation); and with a first operand that is not a valid
call-credential handle, compose fails before any native construction. -/
theorem compose_insecure_and_arg_validation :
    (∀ other : CallCredentialsW,
        ChannelCredentials_Compose (some ChannelCredentials_CreateInsecure) (some other) =
          ComposeOutcome.jserr
            { kind := JsErrKind.typeError, msg := msgComposeInsecure })
    ∧ (∀ self : ChannelCredentialsW,
        ChannelCredentials_Compose (some self) none =
          ComposeOutcome.jserr
            { kind := JsErrKind.typeError, msg := msgComposeFirstArg }) :=
  ⟨fun _ => rfl, fun _ => rfl⟩

/-- leak_option_bag is a concrete option bag whose first entry attaches the
verification bridge and whose second entry fails validation. -/
def leak_option_bag : List (JsValue × JsValue) :=
  [(JsValue.jstr "checkServerIdentity", JsValue.jsfunc 0),
   (JsValue.jstr "insecureSkipHostnameVerify", JsValue.jstr "yes")]

/-- C1: evaluation of the code at the failing input. A CreateSsl call whose
option bag attaches the bridge (checkServerIdentity) and then fails on a
later option (non-boolean insecureSkipHostnameVerify) ends with the bridge
attached, an error outcome, and zero teardown invocations over the full
lifecycle: the exactly-once teardown contract is violated (the callback_md
is leaked, verify_peer_destruct never runs). -/
theorem createSsl_bridge_teardown_leak :
    (ChannelCredentials_CreateSsl JsValue.null JsValue.null JsValue.null
        (some leak_option_bag)).bridge_attached = true
    ∧ (ChannelCredentials_CreateSsl JsValue.null JsValue.null JsValue.null
        (some leak_option_bag)).outcome =
        BindingOutcome.jserr
          { kind := JsErrKind.genericError, msg := msgInsecureSkipBool }
    ∧ teardown_count (createSsl_lifecycle_events JsValue.null JsValue.null JsValue.null
        (some leak_option_bag)) = 0 := by
  refine ⟨rfl, rfl, rfl⟩

/-- readBufferArg_of_nullish: a null or undefined argument is accepted and
read as the NULL pointer. -/
theorem readBufferArg_of_nullish {v : JsValue} (h : isNullish v = true) :
    readBufferArg v = some none := by
  cases v <;> first | rfl | simp [isNullish] at h

/-- C3: with a valid first argument, providing exactly one of the key and
cert arguments makes createSsl fail with the InvalidArgument-class pairing
error before any credential is constructed (no bridge attached, no partial
state); with both absent and a well-formed option bag it succeeds and the
resulting config has an empty key/cert pair. -/
theorem createSsl_key_cert_pairing
    (a0 a1 a2 : JsValue) (a3 : Option (List (JsValue × JsValue)))
    (r0 : Option String) (h0 : readBufferArg a0 = some r0) :
    (∀ d : String, a1 = JsValue.buffer d → isNullish a2 = true →
        ChannelCredentials_CreateSsl a0 a1 a2 a3 =
          { outcome := BindingOutcome.jserr
              { kind := JsErrKind.genericError, msg := msgKeyCertPairMismatch }
            bridge_attached := false })
    ∧ (∀ d : String, isNullish a1 = true → a2 = JsValue.buffer d →
        ChannelCredentials_CreateSsl a0 a1 a2 a3 =
          { outcome := BindingOutcome.jserr
              { kind := JsErrKind.genericError, msg := msgKeyCertPairMismatch }
            bridge_attached := false })
    ∧ (∀ vo : VerifyPeerOptions, isNullish a1 = true → isNullish a2 = true →
        scanOptionBag a3 = Except.ok vo →
        (ChannelCredentials_CreateSsl a0 a1 a2 a3).outcome =
          BindingOutcome.okCreds
            { refcount := 1
              config := { pem_root_certs := r0
                          pem_key_cert_pair := none
                          verify_options := vo } }) := by
  refine ⟨?_, ?_, ?_⟩
  · intro d h1 h2
    subst h1
    have h2' := readBufferArg_of_nullish h2
    have hbd : readBufferArg (JsValue.buffer d) = some (some d) := rfl
    simp [ChannelCredentials_CreateSsl, h0, h2', hbd]
  · intro d h1 h2
    subst h2
    have h1' := readBufferArg_of_nullish h1
    have hbd : readBufferArg (JsValue.buffer d) = some (some d) := rfl
    simp [ChannelCredentials_CreateSsl, h0, h1', hbd]
  · intro vo h1 h2 hscan
    have h1' := readBufferArg_of_nullish h1
    have h2' := readBufferArg_of_nullish h2
    simp [ChannelCredentials_CreateSsl, h0, h1', h2', hscan,
      grpc_ssl_credentials_create, ssl_build_config]

/-- C3 witness: with a key buffer and no cert, createSsl fails with the
pairing error; with neither, it succeeds with an empty key/cert pair. -/
theorem createSsl_key_cert_pairing_witness :
    ChannelCredentials_CreateSsl JsValue.null (JsValue.buffer "KEY") JsValue.null none =
      { outcome := BindingOutcome.jserr
          { kind := JsErrKind.genericError, msg := msgKeyCertPairMismatch }
        bridge_attached := false }
    ∧ (ChannelCredentials_CreateSsl JsValue.null JsValue.null JsValue.null none).outcome =
      BindingOutcome.okCreds
        { refcount := 1
          config := { pem_root_certs := none
                      pem_key_cert_pair := none
                      verify_options := zeroed_verify_peer_options } } :=
  ⟨(createSsl_key_cert_pairing JsValue.null (JsValue.buffer "KEY") JsValue.null none
      none rfl).1 "KEY" rfl rfl,
   (createSsl_key_cert_pairing JsValue.null JsValue.null JsValue.null none
      none rfl).2.2 zeroed_verify_peer_options rfl rfl rfl⟩

/-- C7: every credential returned by a successful grpc_ssl_credentials_create
has refcount exactly 1; its destruct hook frees the owned root bundle and
both halves of the owned key/cert pair whenever they are present, and it
invokes the verification bridge teardown exactly once when the teardown
hook is non-NULL and never otherwise. -/
theorem ssl_credentials_create_refcount_destruct
    (root : Option String) (pair : Option GrpcSslPemKeyCertPair)
    (vo : Option VerifyPeerOptions) (c : GrpcSslCredentials)
    (h : grpc_ssl_credentials_create root pair vo none = some c) :
    c.refcount = 1
    ∧ (∀ s, c.config.pem_root_certs = some s →
        DestructEvent.free_root s ∈ ssl_destruct c)
    ∧ (∀ p, c.config.pem_key_cert_pair = some p →
        DestructEvent.free_private_key p.private_key ∈ ssl_destruct c
        ∧ DestructEvent.free_cert_chain p.cert_chain ∈ ssl_destruct c)
    ∧ teardown_count (ssl_destruct c) =
        (if c.config.verify_options.verify_peer_destruct then 1 else 0) := by
  simp only [grpc_ssl_credentials_create, Option.map_eq_some'] at h
  rcases h with ⟨cfg, hbuild, hfc⟩
  subst hfc
  refine ⟨rfl, ?_, ?_, ?_⟩
  · intro s hs
    simp only at hs
    simp [ssl_destruct, hs]
  · intro p hp
    simp only at hp
    constructor <;>
      simp [ssl_destruct, hp, grpc_tsi_ssl_pem_key_cert_pairs_destroy]
  · simp only
    cases hroot : cfg.pem_root_certs <;> cases hp : cfg.pem_key_cert_pair <;>
      cases hd : cfg.verify_options.verify_peer_destruct <;>
      simp [ssl_destruct, teardown_count, grpc_tsi_ssl_pem_key_cert_pairs_destroy,
        hroot, hp, hd, List.countP_append, List.countP_cons]

/-- C7 witness: a concrete successful create with root, pair and an
attached bridge yields refcount 1, free events for all owned buffers and
exactly one teardown. -/
theorem ssl_credentials_create_refcount_destruct_witness :
    grpc_ssl_credentials_create (some "ROOT")
        (some { private_key := some "KEY", cert_chain := some "CERT" })
        (some { verify_peer_callback := true
                verify_peer_callback_userdata := some 7
                verify_peer_destruct := true
                skip_hostname_verification := false }) none =
      some { refcount := 1
             config := { pem_root_certs := some "ROOT"
                         pem_key_cert_pair :=
                           some { private_key := "KEY", cert_chain := "CERT" }
                         verify_options :=
                           { verify_peer_callback := true
                             verify_peer_callback_userdata := some 7
                             verify_peer_destruct := true
                             skip_hostname_verification := false } } }
    ∧ ({ refcount := 1
         config := { pem_root_certs := some "ROOT"
                     pem_key_cert_pair :=
                       some { private_key := "KEY", cert_chain := "CERT" }
                     verify_options :=
                       { verify_peer_callback := true
                         verify_peer_callback_userdata := some 7
                         verify_peer_destruct := true
                         skip_hostname_verification := false } } } :
        GrpcSslCredentials).refcount = 1
    ∧ teardown_count (ssl_destruct
        { refcount := 1
          config := { pem_root_certs := some "ROOT"
                      pem_key_cert_pair :=
                        some { private_key := "KEY", cert_chain := "CERT" }
                      verify_options :=
                        { verify_peer_callback := true
                          verify_peer_callback_userdata := some 7
                          verify_peer_destruct := true
                          skip_hostname_verification := false } } }) = 1 :=
  ⟨rfl,
   (ssl_credentials_create_refcount_destruct (some "ROOT")
      (some { private_key := some "KEY", cert_chain := some "CERT" })
      (some { verify_peer_callback := true
              verify_peer_callback_userdata := some 7
              verify_peer_destruct := true
              skip_hostname_verification := false })
      _ rfl).1,
   (ssl_credentials_create_refcount_destruct (some "ROOT")
      (some { private_key := some "KEY", cert_chain := some "CERT" })
      (some { verify_peer_callback := true
              verify_peer_callback_userdata := some 7
              verify_peer_destruct := true
              skip_hostname_verification := false })
      _ rfl).2.2.2⟩

/-- C8: binding-surface validation. Rejection of a non-Buffer value happens
exactly when the value is neither a Buffer nor null/undefined, and each of
the three buffer arguments produces its own TypeError message; in the
option bag a non-callable checkServerIdentity and a non-boolean
insecureSkipHostnameVerify are each rejected with an Error, every other
string key and every non-string key is silently skipped, and an option-bag
error surfaces as the error of the whole call. -/
theorem createSsl_binding_validation :
    (∀ v : JsValue, readBufferArg v = none ↔ (isBuffer v = false ∧ isNullish v = false))
    ∧ (∀ a0 a1 a2 a3, readBufferArg a0 = none →
        ChannelCredentials_CreateSsl a0 a1 a2 a3 =
          { outcome := BindingOutcome.jserr
              { kind := JsErrKind.typeError, msg := msgCreateSslFirstArg }
            bridge_attached := false })
    ∧ (∀ a0 r0 a1 a2 a3, readBufferArg a0 = some r0 → readBufferArg a1 = none →
        ChannelCredentials_CreateSsl a0 a1 a2 a3 =
          { outcome := BindingOutcome.jserr
              { kind := JsErrKind.typeError, msg := msgCreateSslSecondArg }
            bridge_attached := false })
    ∧ (∀ a0 r0 a1 r1 a2 a3, readBufferArg a0 = some r0 → readBufferArg a1 = some r1 →
        readBufferArg a2 = none →
        ChannelCredentials_CreateSsl a0 a1 a2 a3 =
          { outcome := BindingOutcome.jserr
              { kind := JsErrKind.typeError, msg := msgCreateSslThirdArg }
            bridge_attached := false })
    ∧ (∀ value rest vo, isFunctionV value = false →
        scanOptions ((JsValue.jstr "checkServerIdentity", value) :: rest) vo =
          Except.error
            ({ kind := JsErrKind.genericError, msg := msgCheckServerIdentityFn }, vo))
    ∧ (∀ value rest vo, isBooleanV value = false →
        scanOptions ((JsValue.jstr "insecureSkipHostnameVerify", value) :: rest) vo =
          Except.error
            ({ kind := JsErrKind.genericError, msg := msgInsecureSkipBool }, vo))
    ∧ (∀ s value rest vo, s ≠ "checkServerIdentity" → s ≠ "insecureSkipHostnameVerify" →
        scanOptions ((JsValue.jstr s, value) :: rest) vo = scanOptions rest vo)
    ∧ (∀ key value rest vo, isStringV key = false →
        scanOptions ((key, value) :: rest) vo = scanOptions rest vo)
    ∧ (∀ a0 a1 a2 r0 r1 r2 props e voErr, readBufferArg a0 = some r0 →
        readBufferArg a1 = some r1 → readBufferArg a2 = some r2 →
        (r1.isNone != r2.isNone) = false →
        scanOptions props zeroed_verify_peer_options = Except.error (e, voErr) →
        (ChannelCredentials_CreateSsl a0 a1 a2 (some props)).outcome =
          BindingOutcome.jserr e) := by
  refine ⟨?_, ?_, ?_, ?_, ?_, ?_, ?_, ?_, ?_⟩
  · intro v
    cases v <;> simp [readBufferArg, isBuffer, isNullish]
  · intro a0 a1 a2 a3 h
    simp [ChannelCredentials_CreateSsl, h]
  · intro a0 r0 a1 a2 a3 h0 h1
    simp [ChannelCredentials_CreateSsl, h0, h1]
  · intro a0 r0 a1 r1 a2 a3 h0 h1 h2
    simp [ChannelCredentials_CreateSsl, h0, h1, h2]
  · intro value rest vo hv
    cases value <;> simp [isFunctionV] at hv <;> simp [scanOptions]
  · intro value rest vo hv
    cases value <;> simp [isBooleanV] at hv <;> simp [scanOptions]
  · intro s value rest vo h1 h2
    simp [scanOptions, h1, h2]
  · intro key value rest vo hk
    cases key <;> simp [isStringV] at hk <;> simp [scanOptions]
  · intro a0 a1 a2 r0 r1 r2 props e voErr h0 h1 h2 hmb hscan
    simp [ChannelCredentials_CreateSsl, h0, h1, h2, hmb, scanOptionBag, hscan]

/-- C8 witness: a non-Buffer first argument is rejected with the first
TypeError. -/
theorem createSsl_binding_validation_witness :
    ChannelCredentials_CreateSsl JsValue.other JsValue.null JsValue.null none =
      { outcome := BindingOutcome.jserr
          { kind := JsErrKind.typeError, msg := msgCreateSslFirstArg }
        bridge_attached := false } :=
  createSsl_binding_validation.2.1 JsValue.other JsValue.null JsValue.null none rfl

/-!
Security-connector creation hook (SSL variant).
-/

/-- GrpcSecurityStatus models grpc_security_status as tested by the hook:
OK or not OK. -/
inductive GrpcSecurityStatus
  | GRPC_SECURITY_OK
  | GRPC_SECURITY_ERROR
deriving DecidableEq, Repr

/-- SecurityConnector is the opaque connector object produced by the
out-of-scope collaborator. -/
structure SecurityConnector where
  handle : Nat
deriving DecidableEq, Repr

/-- ChannelArgValue models the tagged union of a channel argument value;
the constructor plays the role of the type tag (GRPC_ARG_STRING is the
strval constructor). -/
inductive ChannelArgValue
  | strval (s : String)
  | intval (n : Int)
  | ptrval (p : Nat)
deriving DecidableEq, Repr

/-- ChannelArg models grpc_arg: a key and a tagged value. -/
structure ChannelArg where
  key : String
  value : ChannelArgValue
deriving DecidableEq, Repr

/-- GRPC_SSL_TARGET_NAME_OVERRIDE_ARG is the key of the target-name
override channel argument (a header constant of the repository outside the
provided sources; its exact text is irrelevant to the claims, only its
identity). -/
def GRPC_SSL_TARGET_NAME_OVERRIDE_ARG : String := "grpc.ssl_target_name_override"

/-- GRPC_ARG_HTTP2_SCHEME is the key of the scheme channel argument (a
header constant of the repository outside the provided sources). -/
def GRPC_ARG_HTTP2_SCHEME : String := "grpc.http2_scheme"

/-- Modelled from the spec: grpc_channel_arg_string_create builds a
string-typed channel argument from a key and a value (part of the
channel-argument representation consumed from collaborators, not in the
provided sources). -/
def grpc_channel_arg_string_create (key : String) (value : String) : ChannelArg :=
  { key := key, value := ChannelArgValue.strval value }

/-- Modelled from the spec: grpc_channel_args_copy_and_add copies the
existing argument set and appends the new arguments to it (the spec states
the scheme marker is appended to, not replacing, the existing argument
set; the function itself is consumed from collaborators and is not in the
provided sources). -/
def grpc_channel_args_copy_and_add (args : List ChannelArg)
    (toAdd : List ChannelArg) : List ChannelArg :=
  args ++ toAdd

/-- isStringArgVal tests the type tag of a channel argument value against
GRPC_ARG_STRING. -/
def isStringArgVal : ChannelArgValue → Bool
  | ChannelArgValue.strval _ => true
  | _ => false

/-- argStringValue reads the string of a string-typed channel argument
value. -/
def argStringValue : ChannelArgValue → Option String
  | ChannelArgValue.strval s => some s
  | _ => none

/-- findTargetNameOverride embeds the scan loop of
ssl_create_security_connector: walk the arguments in order and stop at the
first one whose key is GRPC_SSL_TARGET_NAME_OVERRIDE_ARG and whose type is
GRPC_ARG_STRING (a NULL args pointer is the empty list). -/
def findTargetNameOverride : List ChannelArg → Option String
  | [] => none
  | arg :: rest =>
      match arg.value with
      | ChannelArgValue.strval s =>
          if arg.key = GRPC_SSL_TARGET_NAME_OVERRIDE_ARG then some s
          else findTargetNameOverride rest
      | _ => findTargetNameOverride rest

/-- findTargetNameOverride_eq_find characterises the scan as the first
list entry satisfying the key-and-string-type predicate. -/
theorem findTargetNameOverride_eq_find (args : List ChannelArg) :
    findTargetNameOverride args =
      (args.find? fun a =>
          decide (a.key = GRPC_SSL_TARGET_NAME_OVERRIDE_ARG) && isStringArgVal a.value).bind
        (fun a => argStringValue a.value) := by
  induction args with
  | nil => rfl
  | cons a rest ih =>
      cases hv : a.value <;>
        by_cases hk : a.key = GRPC_SSL_TARGET_NAME_OVERRIDE_ARG <;>
        simp [findTargetNameOverride, List.find?_cons, hv, hk, isStringArgVal,
          argStringValue, ih]

/-- ssl_create_security_connector embeds the source hook. The collaborator
grpc_ssl_channel_security_connector_create is out of scope and passed as a
parameter taking the call credentials, the config, the target and the
overridden target name, and returning a status and the connector out
parameter. The hook scans the args for the override, calls the
collaborator, propagates a non-OK status unchanged without building the
augmented args, and on OK appends the https scheme argument to a copy of
the args. -/
def ssl_create_security_connector
    (connector_create : Option Nat → GrpcSslConfig → String → Option String →
      GrpcSecurityStatus × Option SecurityConnector)
    (c : GrpcSslCredentials) (call_creds : Option Nat) (target : String)
    (args : List ChannelArg) :
    GrpcSecurityStatus × Option SecurityConnector × Option (List ChannelArg) :=
  let overridden_target_name := findTargetNameOverride args
  let res := connector_create call_creds c.config target overridden_target_name
  if res.1 ≠ GrpcSecurityStatus.GRPC_SECURITY_OK then
    (res.1, res.2, none)
  else
    let new_arg := grpc_channel_arg_string_create GRPC_ARG_HTTP2_SCHEME "https"
    (res.1, res.2, some (grpc_channel_args_copy_and_add args [new_arg]))

/-- C5: the connector hook uses the first string-typed target-name-override
entry of the channel args as the overridden name handed to the
collaborator; on a non-OK status (with the collaborator leaving the out
parameter unset, as its contract states) the status is propagated
unchanged, no connector is produced and no augmented argument list is
allocated; on OK the hook returns the collaborator connector together with
the input arguments plus one appended https scheme argument. -/
theorem ssl_create_security_connector_contract
    (connector_create : Option Nat → GrpcSslConfig → String → Option String →
      GrpcSecurityStatus × Option SecurityConnector)
    (c : GrpcSslCredentials) (call_creds : Option Nat) (target : String)
    (args : List ChannelArg) :
    findTargetNameOverride args =
      (args.find? fun a =>
          decide (a.key = GRPC_SSL_TARGET_NAME_OVERRIDE_ARG) && isStringArgVal a.value).bind
        (fun a => argStringValue a.value)
    ∧ (∀ sc, connector_create call_creds c.config target (findTargetNameOverride args) =
          (GrpcSecurityStatus.GRPC_SECURITY_OK, sc) →
        ssl_create_security_connector connector_create c call_creds target args =
          (GrpcSecurityStatus.GRPC_SECURITY_OK, sc,
            some (args ++ [grpc_channel_arg_string_create GRPC_ARG_HTTP2_SCHEME "https"])))
    ∧ (∀ st sc, connector_create call_creds c.config target (findTargetNameOverride args) =
          (st, sc) →
        st ≠ GrpcSecurityStatus.GRPC_SECURITY_OK → sc = none →
        ssl_create_security_connector connector_create c call_creds target args =
          (st, none, none)) := by
  refine ⟨findTargetNameOverride_eq_find args, ?_, ?_⟩
  · intro sc h
    simp [ssl_create_security_connector, h, grpc_channel_args_copy_and_add]
  · intro st sc h hne hsc
    subst hsc
    simp [ssl_create_security_connector, h, hne]

/-- c5_connector_create_ok is a concrete collaborator that always succeeds
with connector handle 3. -/
def c5_connector_create_ok : Option Nat → GrpcSslConfig → String → Option String →
    GrpcSecurityStatus × Option SecurityConnector :=
  fun _ _ _ _ => (GrpcSecurityStatus.GRPC_SECURITY_OK, some { handle := 3 })

/-- C5 witness: with the always-OK collaborator and empty channel args, the
hook returns OK, the connector, and the singleton https argument list. -/
theorem ssl_create_security_connector_contract_witness :
    ssl_create_security_connector c5_connector_create_ok
        { refcount := 1
          config := { pem_root_certs := none
                      pem_key_cert_pair := none
                      verify_options := zeroed_verify_peer_options } }
        none "example.com" [] =
      (GrpcSecurityStatus.GRPC_SECURITY_OK, some { handle := 3 },
        some [grpc_channel_arg_string_create GRPC_ARG_HTTP2_SCHEME "https"]) := by
  have h := (ssl_create_security_connector_contract c5_connector_create_ok
      { refcount := 1
        config := { pem_root_certs := none
                    pem_key_cert_pair := none
                    verify_options := zeroed_verify_peer_options } }
      none "example.com" []).2.1 (some { handle := 3 }) rfl
  simpa using h

/-!
Heap-level model of ssl_build_config for the deep-copy/no-aliasing claim.
The allocator is made explicit: a Heap maps addresses to byte contents and
has an allocation frontier; every address below the frontier is allocated
(caller memory included), gpr_strdup allocates at the frontier and copies
the source contents. This is the same source function as ssl_build_config
above, with gpr_strdup kept as an address-returning copy instead of being
abstracted to the value level (verify options do not own buffers and are
omitted here; key and cert are taken as present, as the asserted path
requires). -/

/-- Heap is an explicit store: contents by address plus the allocation
frontier. -/
structure Heap where
  mem : Nat → String
  next : Nat

/-- hwrite models a caller mutating (or freeing and reusing) one of its own
buffers after construction. -/
def hwrite (h : Heap) (a : Nat) (v : String) : Heap :=
  { mem := fun x => if x = a then v else h.mem x, next := h.next }

/-- gpr_strdup_h is gpr_strdup with the allocator explicit: allocate the
next fresh address, copy the source contents there and return the new
address. -/
def gpr_strdup_h (h : Heap) (src : Nat) : Heap × Nat :=
  ({ mem := fun x => if x = h.next then h.mem src else h.mem x, next := h.next + 1 },
   h.next)

/-- HSslConfig is the address-level view of the config built by
ssl_build_config: the owned root copy and the owned (private_key,
cert_chain) copies. -/
structure HSslConfig where
  pem_root_certs : Option Nat
  pem_key_cert_pair : Option (Nat × Nat)
deriving DecidableEq, Repr

/-- ssl_build_config_h is ssl_build_config over the explicit heap: strdup
the root when present, then, when a pair is passed, allocate the owned pair
and strdup the cert chain first and the private key second, exactly as the
source does. -/
def ssl_build_config_h (h : Heap) (root : Option Nat) (pair : Option (Nat × Nat)) :
    Heap × HSslConfig :=
  let step1 : Heap × Option Nat :=
    match root with
    | none => (h, none)
    | some a =>
        let r := gpr_strdup_h h a
        (r.1, some r.2)
  match pair with
  | none => (step1.1, { pem_root_certs := step1.2, pem_key_cert_pair := none })
  | some kc =>
      let rc := gpr_strdup_h step1.1 kc.2
      let rk := gpr_strdup_h rc.1 kc.1
      (rk.1, { pem_root_certs := step1.2, pem_key_cert_pair := some (rk.2, rc.2) })

/-- configContents reads the stored contents of a config under a heap. -/
def configContents (h : Heap) (cfg : HSslConfig) :
    Option String × Option (String × String) :=
  (cfg.pem_root_certs.map h.mem,
   cfg.pem_key_cert_pair.map fun p => (h.mem p.1, h.mem p.2))

/-- addrsOk states that the caller buffers are allocated caller memory:
every supplied address lies below the allocation frontier. -/
def addrsOk (h : Heap) (root : Option Nat) (pair : Option (Nat × Nat)) : Bool :=
  (match root with
   | none => true
   | some a => decide (a < h.next))
  && (match pair with
      | none => true
      | some kc => decide (kc.1 < h.next) && decide (kc.2 < h.next))

/-- strdup_mem_new: the fresh copy holds the source contents. -/
theorem strdup_mem_new (h : Heap) (src : Nat) :
    (gpr_strdup_h h src).1.mem h.next = h.mem src := by
  simp [gpr_strdup_h]

/-- strdup_mem_old: every other address is untouched by the copy. -/
theorem strdup_mem_old (h : Heap) (src : Nat) {x : Nat} (hx : x ≠ h.next) :
    (gpr_strdup_h h src).1.mem x = h.mem x := by
  simp [gpr_strdup_h, hx]

/-- strdup_next: the frontier advances by one. -/
theorem strdup_next (h : Heap) (src : Nat) :
    (gpr_strdup_h h src).1.next = h.next + 1 := rfl

/-- hwrite_mem_ne: writing one address leaves every other address
unchanged. -/
theorem hwrite_mem_ne (h : Heap) (a : Nat) (v : String) {x : Nat} (hx : x ≠ a) :
    (hwrite h a v).mem x = h.mem x := by
  simp [hwrite, hx]

/-- C6: every caller-supplied buffer is deep-copied at construction time
into fresh owned storage (every stored address is at or above the old
allocation frontier, hence distinct from every caller address), the copies
hold the contents the caller buffers had at construction, and writing any
caller address afterwards leaves the stored config contents unchanged. -/
theorem ssl_build_config_h_deep_copies
    (h : Heap) (root : Option Nat) (pair : Option (Nat × Nat))
    (hok : addrsOk h root pair = true) :
    (∀ a, root = some a →
        ∃ ra, (ssl_build_config_h h root pair).2.pem_root_certs = some ra
          ∧ h.next ≤ ra
          ∧ (ssl_build_config_h h root pair).1.mem ra = h.mem a)
    ∧ (∀ k ch, pair = some (k, ch) →
        ∃ ka ca, (ssl_build_config_h h root pair).2.pem_key_cert_pair = some (ka, ca)
          ∧ h.next ≤ ka ∧ h.next ≤ ca
          ∧ (ssl_build_config_h h root pair).1.mem ka = h.mem k
          ∧ (ssl_build_config_h h root pair).1.mem ca = h.mem ch)
    ∧ (∀ w v, w < h.next →
        configContents (hwrite (ssl_build_config_h h root pair).1 w v)
            (ssl_build_config_h h root pair).2 =
          configContents (ssl_build_config_h h root pair).1
            (ssl_build_config_h h root pair).2) := by
  rcases root with _ | a <;> rcases pair with _ | ⟨k, ch⟩ <;>
    simp only [addrsOk, Bool.and_eq_true, decide_eq_true_eq] at hok
  · refine ⟨?_, ?_, ?_⟩
    · intro a ha; exact absurd ha (by simp)
    · intro k ch hp; exact absurd hp (by simp)
    · intro w v hw; rfl
  · obtain ⟨-, hk, hch⟩ := hok
    refine ⟨?_, ?_, ?_⟩
    · intro a ha; exact absurd ha (by simp)
    · intro k0 ch0 hp
      simp only [Option.some.injEq, Prod.mk.injEq] at hp
      obtain ⟨rfl, rfl⟩ := hp
      refine ⟨h.next + 1, h.next, rfl, by omega, le_refl _, ?_, ?_⟩ <;>
        simp [ssl_build_config_h, gpr_strdup_h] <;>
        all_goals first
          | (split_ifs <;> first | rfl | omega)
          | (intro h1; omega)
    · intro w v hw
      simp [ssl_build_config_h, gpr_strdup_h, configContents, hwrite]
      all_goals first
        | (split_ifs <;> first | rfl | omega)
        | (intro h1; omega)
  · obtain ⟨ha, -⟩ := hok
    refine ⟨?_, ?_, ?_⟩
    · intro a0 ha0
      simp only [Option.some.injEq] at ha0
      subst ha0
      refine ⟨h.next, rfl, le_refl _, ?_⟩
      simp [ssl_build_config_h, gpr_strdup_h]
    · intro k ch hp; exact absurd hp (by simp)
    · intro w v hw
      simp [ssl_build_config_h, gpr_strdup_h, configContents, hwrite]
      all_goals first
        | (split_ifs <;> first | rfl | omega)
        | (intro h1; omega)
  · obtain ⟨ha, hk, hch⟩ := hok
    refine ⟨?_, ?_, ?_⟩
    · intro a0 ha0
      simp only [Option.some.injEq] at ha0
      subst ha0
      refine ⟨h.next, rfl, le_refl _, ?_⟩
      simp [ssl_build_config_h, gpr_strdup_h]
      all_goals first
        | (split_ifs <;> first | rfl | omega)
        | (intro h1; omega)
    · intro k0 ch0 hp
      simp only [Option.some.injEq, Prod.mk.injEq] at hp
      obtain ⟨rfl, rfl⟩ := hp
      refine ⟨h.next + 2, h.next + 1, rfl, by omega, by omega, ?_, ?_⟩ <;>
        simp [ssl_build_config_h, gpr_strdup_h] <;>
        all_goals first
          | (split_ifs <;> first | rfl | omega)
          | (intro h1; omega)
    · intro w v hw
      simp [ssl_build_config_h, gpr_strdup_h, configContents, hwrite]
      all_goals first
        | (split_ifs <;> first | rfl | omega)
        | (intro h1; omega)

/-- C6 witness: a concrete heap with frontier 3, caller root at 0, key at 1
and chain at 2; the stored root copy is fresh and holds the caller
contents. -/
theorem ssl_build_config_h_deep_copies_witness :
    ∃ ra, (ssl_build_config_h { mem := fun _ => "S", next := 3 }
            (some 0) (some (1, 2))).2.pem_root_certs = some ra
      ∧ 3 ≤ ra
      ∧ (ssl_build_config_h { mem := fun _ => "S", next := 3 }
            (some 0) (some (1, 2))).1.mem ra = "S" :=
  (ssl_build_config_h_deep_copies { mem := fun _ => "S", next := 3 }
      (some 0) (some (1, 2)) rfl).1 0 rfl

/-!
SSL server credentials.
-/

/-- GrpcSslClientCertificateRequestType is the enumerated
client-certificate request policy (the enum is declared in a public header
of the repository outside the provided sources; the five values follow the
spec description of the enumerated policy, from dont-request to
require-and-verify). -/
inductive GrpcSslClientCertificateRequestType
  | GRPC_SSL_DONT_REQUEST_CLIENT_CERTIFICATE
  | GRPC_SSL_REQUEST_CLIENT_CERTIFICATE_BUT_DONT_VERIFY
  | GRPC_SSL_REQUEST_CLIENT_CERTIFICATE_AND_VERIFY
  | GRPC_SSL_REQUEST_AND_REQUIRE_CLIENT_CERTIFICATE_BUT_DONT_VERIFY
  | GRPC_SSL_REQUEST_AND_REQUIRE_CLIENT_CERTIFICATE_AND_VERIFY
deriving DecidableEq, Repr

/-- GrpcSslServerConfig embeds grpc_ssl_server_config: root bundle, owned
pair array with its count, and the client-certificate request policy. -/
structure GrpcSslServerConfig where
  pem_root_certs : Option String
  pem_key_cert_pairs : List TsiPemKeyCertPair
  num_key_cert_pairs : Nat
  client_certificate_request : GrpcSslClientCertificateRequestType
deriving DecidableEq, Repr

/-- GrpcSslServerCredentials embeds grpc_ssl_server_credentials: the
refcounted base plus the owned server config. -/
structure GrpcSslServerCredentials where
  refcount : Nat
  config : GrpcSslServerConfig
deriving DecidableEq, Repr

/-- grpc_convert_grpc_to_tsi_cert_pairs embeds the source function: each
input pair must have both halves non-NULL (GPR_ASSERT, modelled as none)
and both halves are strdup-copied into the owned array (the C signature
passes the array pointer and its count; the embedding passes the list). -/
def grpc_convert_grpc_to_tsi_cert_pairs :
    List GrpcSslPemKeyCertPair → Option (List TsiPemKeyCertPair)
  | [] => some []
  | p :: rest =>
      match p.private_key, p.cert_chain with
      | some k, some ch =>
          (grpc_convert_grpc_to_tsi_cert_pairs rest).map
            fun ts => { private_key := k, cert_chain := ch } :: ts
      | _, _ => none

/-- ssl_build_server_config embeds the source function: store the request
policy, strdup the root bundle when present, convert the pairs and record
their count. -/
def ssl_build_server_config (pem_root_certs : Option String)
    (pem_key_cert_pairs : List GrpcSslPemKeyCertPair)
    (client_certificate_request : GrpcSslClientCertificateRequestType) :
    Option GrpcSslServerConfig :=
  (grpc_convert_grpc_to_tsi_cert_pairs pem_key_cert_pairs).map
    fun ts =>
      { pem_root_certs := pem_root_certs
        pem_key_cert_pairs := ts
        num_key_cert_pairs := pem_key_cert_pairs.length
        client_certificate_request := client_certificate_request }

/-- grpc_ssl_server_credentials_create_ex embeds the source entry point:
assert reserved is NULL, zero-allocate, set type and vtable, refcount 1,
build the server config. -/
def grpc_ssl_server_credentials_create_ex (pem_root_certs : Option String)
    (pem_key_cert_pairs : List GrpcSslPemKeyCertPair)
    (client_certificate_request : GrpcSslClientCertificateRequestType)
    (reserved : Option Unit) : Option GrpcSslServerCredentials :=
  match reserved with
  | some _ => none
  | none =>
      (ssl_build_server_config pem_root_certs pem_key_cert_pairs
          client_certificate_request).map
        fun cfg => { refcount := 1, config := cfg }

/-- grpc_ssl_server_credentials_create embeds the boolean convenience entry
point: it forwards to the extended entry point, turning the C truthiness
test on force_client_auth into the request-and-require-and-verify mode when
nonzero and the dont-request mode when zero. -/
def grpc_ssl_server_credentials_create (pem_root_certs : Option String)
    (pem_key_cert_pairs : List GrpcSslPemKeyCertPair) (force_client_auth : Int)
    (reserved : Option Unit) : Option GrpcSslServerCredentials :=
  grpc_ssl_server_credentials_create_ex pem_root_certs pem_key_cert_pairs
    (if force_client_auth = 0 then
        GrpcSslClientCertificateRequestType.GRPC_SSL_DONT_REQUEST_CLIENT_CERTIFICATE
      else
        GrpcSslClientCertificateRequestType.GRPC_SSL_REQUEST_AND_REQUIRE_CLIENT_CERTIFICATE_AND_VERIFY)
    reserved

/-- server_create_boolean_spec follows the words of the claim: the boolean
entry point is the extended entry point with the mode set to
request-and-require-and-verify when force_client_auth is nonzero and to
dont-request when it is zero. -/
def server_create_boolean_spec (pem_root_certs : Option String)
    (pem_key_cert_pairs : List GrpcSslPemKeyCertPair) (force_client_auth : Int)
    (reserved : Option Unit) : Option GrpcSslServerCredentials :=
  grpc_ssl_server_credentials_create_ex pem_root_certs pem_key_cert_pairs
    (if force_client_auth ≠ 0 then
        GrpcSslClientCertificateRequestType.GRPC_SSL_REQUEST_AND_REQUIRE_CLIENT_CERTIFICATE_AND_VERIFY
      else
        GrpcSslClientCertificateRequestType.GRPC_SSL_DONT_REQUEST_CLIENT_CERTIFICATE)
    reserved

/-- C10: the boolean convenience entry point agrees with the extended entry
point under the claimed mode mapping for every input, and every credential
it successfully produces carries one of exactly two modes: dont-request
(force zero) or request-and-require-and-verify (force nonzero). -/
theorem server_create_boolean_refines_ex (pem_root_certs : Option String)
    (pem_key_cert_pairs : List GrpcSslPemKeyCertPair) (force_client_auth : Int)
    (reserved : Option Unit) :
    grpc_ssl_server_credentials_create pem_root_certs pem_key_cert_pairs
        force_client_auth reserved =
      server_create_boolean_spec pem_root_certs pem_key_cert_pairs
        force_client_auth reserved
    ∧ (∀ c, grpc_ssl_server_credentials_create pem_root_certs pem_key_cert_pairs
          force_client_auth reserved = some c →
        (force_client_auth = 0 ∧ c.config.client_certificate_request =
            GrpcSslClientCertificateRequestType.GRPC_SSL_DONT_REQUEST_CLIENT_CERTIFICATE)
        ∨ (force_client_auth ≠ 0 ∧ c.config.client_certificate_request =
            GrpcSslClientCertificateRequestType.GRPC_SSL_REQUEST_AND_REQUIRE_CLIENT_CERTIFICATE_AND_VERIFY)) := by
  constructor
  · by_cases hf : force_client_auth = 0 <;>
      simp [grpc_ssl_server_credentials_create, server_create_boolean_spec, hf]
  · intro c hc
    by_cases hf : force_client_auth = 0
    · left
      refine ⟨hf, ?_⟩
      simp only [grpc_ssl_server_credentials_create, hf, if_pos] at hc
      cases reserved with
      | some u => simp [grpc_ssl_server_credentials_create_ex] at hc
      | none =>
          simp only [grpc_ssl_server_credentials_create_ex,
            ssl_build_server_config, Option.map_map, Option.map_eq_some'] at hc
          obtain ⟨ts, hts, hcc⟩ := hc
          subst hcc
          rfl
    · right
      refine ⟨hf, ?_⟩
      simp only [grpc_ssl_server_credentials_create, hf, if_neg] at hc
      cases reserved with
      | some u => simp [grpc_ssl_server_credentials_create_ex] at hc
      | none =>
          simp only [grpc_ssl_server_credentials_create_ex,
            ssl_build_server_config, Option.map_map, Option.map_eq_some'] at hc
          obtain ⟨ts, hts, hcc⟩ := hc
          subst hcc
          rfl

/-- C10 witness: with no pairs and force nonzero, the boolean entry point
produces a credential whose mode is request-and-require-and-verify. -/
theorem server_create_boolean_refines_ex_witness :
    grpc_ssl_server_credentials_create none [] 1 none =
      server_create_boolean_spec none [] 1 none
    ∧ ((1 : Int) ≠ 0 ∧
        ({ refcount := 1
           config := { pem_root_certs := none
                       pem_key_cert_pairs := []
                       num_key_cert_pairs := 0
                       client_certificate_request :=
                         GrpcSslClientCertificateRequestType.GRPC_SSL_REQUEST_AND_REQUIRE_CLIENT_CERTIFICATE_AND_VERIFY } } :
          GrpcSslServerCredentials).config.client_certificate_request =
          GrpcSslClientCertificateRequestType.GRPC_SSL_REQUEST_AND_REQUIRE_CLIENT_CERTIFICATE_AND_VERIFY) := by
  have h := server_create_boolean_refines_ex none [] 1 none
  refine ⟨h.1, ?_⟩
  have h2 := h.2 _ rfl
  rcases h2 with ⟨h0, -⟩ | ⟨-, hcc⟩
  · exact absurd h0 (by decide)
  · exact ⟨by decide, hcc⟩
